import Mathlib

/-
Verification of the REAI foreclosure-platform backend (Node/Express + Mongoose).

This file gives a shallow embedding, in Lean 4, of the parts of the code base
that the specification's claims are about:

* the auth middleware (`src/server/middleware/auth.js`): `protect` and
  `checkSubscription`;
* the data-collection scheduler
  (`src/server/services/automation/dataCollectionScheduler.js`):
  the `isRunning` admission flag of `runForeclosureDataCollection`;
* the foreclosure scraper
  (`src/server/services/dataCollection/foreclosureScraper.js`):
  `parseAddress`, `parsePrice`, `parseForeclosureStatus`,
  `calculateCompleteness`, `processPropertyData` and `processAndSaveData`;
* the analysis controller (`src/server/controllers/analysisController.js`):
  `calculateMonthlyPayment` and the rental metrics of
  `calculateRentalAnalysis`;
* the Mongoose models (`Analysis`, `Lead`, `Property`): the `pre('save')`
  hooks and the `calculateROI` Lead method;
* the property controller (`src/server/controllers/propertyController.js`):
  the response taxonomy of every handler.

JavaScript numbers are modelled as exact rationals (`ℚ`); JavaScript's
truthiness test `if (x)` on an optional number is `x` present and non-zero,
and on an optional string it is `x` present and non-empty.  Fallible
asynchronous calls (database queries, JWT verification) are modelled as
explicit `Except`/`Option`-valued inputs of the handler being embedded, and
a `try { ... } catch` block becomes a `match` on those inputs.  Mutable
state (the scheduler's `isRunning` flag) becomes an explicit state type with
a step relation.
-/

namespace REAI

/-! ## HTTP middleware results

An Express middleware either sends a response (`respond status message`,
standing for `res.status(status).json({ message })`) or invokes the
downstream handler (`next`).  -/

inductive MwResult where
  | respond (status : Nat) (message : String)
  | next
deriving DecidableEq, Repr

/-! ## `checkSubscription` (src/server/middleware/auth.js, lines 340-364)

`req.user.subscription` carries the plan name and the `isActive` flag of the
`User` model's `subscription` subdocument.  -/

/-- The `subscription` subdocument of the `User` model that
`checkSubscription` reads: `plan` and `isActive`. -/
structure Subscription where
  plan : String
  isActive : Bool
deriving DecidableEq, Repr

/-- The part of `req.user` read by `checkSubscription`. -/
structure ReqUser where
  subscription : Subscription
deriving DecidableEq, Repr

/-- The plan hierarchy:
`const planHierarchy = ['Free', 'Basic', 'Professional', 'Enterprise']`. -/
def planHierarchy : List String := ["Free", "Basic", "Professional", "Enterprise"]

/-- JavaScript `Array.prototype.indexOf`: the index of the first occurrence,
and `-1` when the element does not occur. -/
def jsIndexOf (l : List String) (x : String) : Int :=
  match l.findIdx? (fun y => y == x) with
  | some i => (i : Int)
  | none => -1

/-- The middleware `checkSubscription(requiredPlan)` applied to a request carrying
`user` (`none` models a request with no authenticated user attached):

* no user → `401 Not authorized`;
* `userPlanIndex < requiredPlanIndex` → `403`;
* `!req.user.subscription.isActive` → `403`;
* otherwise `next()`.  -/
def checkSubscription (requiredPlan : String) (user : Option ReqUser) : MwResult :=
  match user with
  | none => .respond 401 "Not authorized"
  | some u =>
      let userPlanIndex := jsIndexOf planHierarchy u.subscription.plan
      let requiredPlanIndex := jsIndexOf planHierarchy requiredPlan
      if userPlanIndex < requiredPlanIndex then
        .respond 403 ("This feature requires " ++ requiredPlan ++ " plan or higher")
      else if u.subscription.isActive = false then
        .respond 403 "Subscription is not active"
      else
        .next

/-! ## The data-collection scheduler's `isRunning` flag
(src/server/services/automation/dataCollectionScheduler.js, lines 74-131)

`runForeclosureDataCollection` checks `this.isRunning` and returns
immediately when it is set; otherwise it sets the flag, scrapes, and resets
the flag in its `finally` block, whether or not the run threw.  The state of
the scheduler is the flag together with the number of collection runs
currently in progress; each call of the method is one of three atomic
events (the check-and-set is atomic because the method body up to the first
`await` runs synchronously on the single-threaded event loop).  -/

/-- Scheduler state: the `isRunning` flag and the number of collection
runs currently between their admission check and their `finally` block. -/
structure SchedulerState where
  isRunning : Bool
  activeRuns : Nat
deriving DecidableEq, Repr

/-- The entry check of `runForeclosureDataCollection` (lines 75-80): if
`isRunning` the call returns immediately (`false` = the run was skipped),
otherwise it sets the flag and the run proceeds to scraping. -/
def runEntry (s : SchedulerState) : SchedulerState × Bool :=
  if s.isRunning then (s, false)
  else (⟨true, s.activeRuns + 1⟩, true)

/-- The exit of a run: the `finally` block (lines 128-130) resets
`isRunning`, whether the run completed or threw. -/
def runExit (s : SchedulerState) : SchedulerState :=
  ⟨false, s.activeRuns - 1⟩

/-- One atomic event of the scheduler: a cron callback invoking
`runForeclosureDataCollection` either starts a run (flag clear) or is
skipped by the early return (flag set); an in-progress run finishes
through its `finally` block. -/
inductive SchedulerStep : SchedulerState → SchedulerState → Prop
  | start (s : SchedulerState) (h : s.isRunning = false) :
      SchedulerStep s (runEntry s).1
  | skip (s : SchedulerState) (h : s.isRunning = true) :
      SchedulerStep s (runEntry s).1
  | finish (s : SchedulerState) (h : 0 < s.activeRuns) :
      SchedulerStep s (runExit s)

/-- The scheduler's initial state (`constructor`, line 10:
`this.isRunning = false`). -/
def schedulerInit : SchedulerState := ⟨false, 0⟩

/-- States the scheduler can reach from its initial state. -/
def SchedulerReachable (s : SchedulerState) : Prop :=
  Relation.ReflTransGen SchedulerStep schedulerInit s

/-- In every reachable scheduler state the number of in-progress runs is
exactly the value of the `isRunning` flag. -/
lemma schedulerReachable_activeRuns {s : SchedulerState}
    (h : SchedulerReachable s) :
    s.activeRuns = (if s.isRunning then 1 else 0) := by
  induction h with
  | refl => rfl
  | tail _ hstep ih =>
      cases hstep with
      | start ht =>
          simp [runEntry, ht] at ih ⊢
          omega
      | skip ht =>
          simp [runEntry, ht] at ih ⊢
          omega
      | finish ht =>
          split at ih <;> simp [runExit] <;> omega

/-- C1: `checkSubscription(requiredPlan)` invokes the downstream handler if
and only if the index of the user's `subscription.plan` in the hierarchy
`['Free','Basic','Professional','Enterprise']` is at least the index of
`requiredPlan` and `subscription.isActive` is true; otherwise it responds
403 without invoking the handler, and 401 when no user is attached to the
request.  Access is monotone in the plan tier: raising a user's plan never
revokes access. -/
theorem checkSubscription_gate (requiredPlan : String) (u : ReqUser) :
    (checkSubscription requiredPlan (some u) = .next ↔
      jsIndexOf planHierarchy requiredPlan ≤ jsIndexOf planHierarchy u.subscription.plan
        ∧ u.subscription.isActive = true)
    ∧ (checkSubscription requiredPlan (some u) ≠ .next →
        ∃ m, checkSubscription requiredPlan (some u) = .respond 403 m)
    ∧ checkSubscription requiredPlan none = .respond 401 "Not authorized"
    ∧ (∀ u' : ReqUser,
        jsIndexOf planHierarchy u.subscription.plan
            ≤ jsIndexOf planHierarchy u'.subscription.plan →
        u'.subscription.isActive = u.subscription.isActive →
        checkSubscription requiredPlan (some u) = .next →
        checkSubscription requiredPlan (some u') = .next) := by
  have hchar : ∀ v : ReqUser, checkSubscription requiredPlan (some v) = .next ↔
      jsIndexOf planHierarchy requiredPlan ≤ jsIndexOf planHierarchy v.subscription.plan
        ∧ v.subscription.isActive = true := by
    intro v
    unfold checkSubscription
    by_cases h1 : jsIndexOf planHierarchy v.subscription.plan
        < jsIndexOf planHierarchy requiredPlan
    · simp only [h1, if_true]
      constructor
      · intro h; cases h
      · rintro ⟨hle, _⟩; omega
    · by_cases h2 : v.subscription.isActive = false
      · simp [h1, h2]
      · simp only [Bool.not_eq_false] at h2
        simp only [h1, if_false]
        simp [h2, not_lt.mp h1]
  refine ⟨hchar u, ?_, rfl, ?_⟩
  · intro hne
    unfold checkSubscription at hne ⊢
    by_cases h1 : jsIndexOf planHierarchy u.subscription.plan
        < jsIndexOf planHierarchy requiredPlan
    · exact ⟨"This feature requires " ++ requiredPlan ++ " plan or higher",
        by simp [h1]⟩
    · by_cases h2 : u.subscription.isActive = false
      · exact ⟨"Subscription is not active", by simp [h1, h2]⟩
      · exfalso; exact hne (by simp [h1, h2])
  · intro u' hle hact hu
    rcases (hchar u).mp hu with ⟨hreq, hactive⟩
    exact (hchar u').mpr ⟨le_trans hreq hle, by rw [hact, hactive]⟩

/-- Witness for C1 at concrete inputs: an Enterprise user with an active
subscription passes the Professional gate. -/
theorem checkSubscription_gate_witness :
    checkSubscription "Professional" (some ⟨⟨"Enterprise", true⟩⟩) = .next := by
  exact (checkSubscription_gate "Professional" ⟨⟨"Enterprise", true⟩⟩).1.mpr
    ⟨by decide, rfl⟩

/-- C2: at most one foreclosure data collection run is ever in progress.
`runForeclosureDataCollection` returns immediately, without changing the
scheduler state, when `isRunning` is set; in every reachable state of the
scheduler's step relation at most one run is in progress; and no step taken
while a run is in progress can start a second one (the number of
in-progress runs never increases past one). -/
theorem runForeclosureDataCollection_single_run :
    (∀ s : SchedulerState, s.isRunning = true → runEntry s = (s, false))
    ∧ (∀ s : SchedulerState, SchedulerReachable s → s.activeRuns ≤ 1)
    ∧ (∀ s s' : SchedulerState, SchedulerReachable s → 0 < s.activeRuns →
        SchedulerStep s s' → ¬ s.activeRuns < s'.activeRuns) := by
  refine ⟨?_, ?_, ?_⟩
  · intro s hs; simp [runEntry, hs]
  · intro s hs
    have h := schedulerReachable_activeRuns hs
    split at h <;> omega
  · intro s s' hs hpos hstep
    have h := schedulerReachable_activeRuns hs
    cases hstep with
    | start ht => rw [ht] at h; simp at h; omega
    | skip ht => simp [runEntry, ht]
    | finish ht => simp [runExit]

/-- Witness for C2 at a concrete reachable state: after starting one run
from the initial state, `activeRuns` is at most 1, and the entry check of a
second call returns immediately. -/
theorem runForeclosureDataCollection_single_run_witness :
    (⟨true, 1⟩ : SchedulerState).activeRuns ≤ 1
    ∧ runEntry ⟨true, 1⟩ = (⟨true, 1⟩, false) := by
  constructor
  · exact runForeclosureDataCollection_single_run.2.1 ⟨true, 1⟩
      (Relation.ReflTransGen.single (SchedulerStep.start schedulerInit rfl))
  · exact runForeclosureDataCollection_single_run.1 ⟨true, 1⟩ rfl

/-! ## `calculateMonthlyPayment`
(src/server/controllers/analysisController.js, lines 482-490)

JavaScript numbers are modelled as exact rationals; `loanTerm` (`years`) is
a natural number so that `Math.pow(1 + monthlyRate, years * 12)` is a
rational power with a natural exponent. -/

/-- The helper `calculateMonthlyPayment(principal, annualRate, years)`:
`principal / (years * 12)` at zero rate, otherwise the annuity formula with
`monthlyRate = annualRate / 100 / 12` over `years * 12` payments. -/
def calculateMonthlyPayment (principal annualRate : ℚ) (years : ℕ) : ℚ :=
  if annualRate = 0 then principal / ((years : ℚ) * 12)
  else
    let monthlyRate := annualRate / 100 / 12
    let numberOfPayments := years * 12
    principal * (monthlyRate * (1 + monthlyRate) ^ numberOfPayments) /
      ((1 + monthlyRate) ^ numberOfPayments - 1)

/-- Remaining balance of a fixed-rate loan: each month the balance accrues
one month of interest and one payment is subtracted.  This is the defining
recurrence of fixed-rate amortization, used to check that
`calculateMonthlyPayment` is the standard amortization formula. -/
def loanBalance (principal monthlyRate payment : ℚ) : ℕ → ℚ
  | 0 => principal
  | k + 1 => loanBalance principal monthlyRate payment k * (1 + monthlyRate) - payment

/-- Closed form of the amortization recurrence at a non-zero monthly rate. -/
lemma loanBalance_closed (P r pay : ℚ) (hr : r ≠ 0) (n : ℕ) :
    loanBalance P r pay n = P * (1 + r) ^ n - pay * (((1 + r) ^ n - 1) / r) := by
  induction n with
  | zero => simp [loanBalance]
  | succ k ih =>
      rw [loanBalance, ih, pow_succ]
      field_simp
      ring

/-- The annuity payment `P * (r * (1+r)^n) / ((1+r)^n - 1)` pays a loan of
`P` at monthly rate `r` off exactly in `n` payments. -/
lemma annuity_pays_off (P r : ℚ) (hr : r ≠ 0) (n : ℕ)
    (hpow : (1 + r) ^ n - 1 ≠ 0) :
    loanBalance P r (P * (r * (1 + r) ^ n) / ((1 + r) ^ n - 1)) n = 0 := by
  rw [loanBalance_closed _ _ _ hr]
  set A : ℚ := (1 + r) ^ n with hA
  field_simp
  ring

/-- Closed form of the amortization recurrence at zero rate. -/
lemma loanBalance_zero_rate (P pay : ℚ) (n : ℕ) :
    loanBalance P 0 pay n = P - n * pay := by
  induction n with
  | zero => simp [loanBalance]
  | succ k ih => rw [loanBalance, ih]; push_cast; ring

/-- C3: `calculateMonthlyPayment(principal, annualRate, years)` returns
`principal / (years * 12)` when `annualRate = 0` and otherwise
`principal * (r * (1 + r)^n) / ((1 + r)^n - 1)` with `r = annualRate/100/12`
and `n = years * 12`; and this is the standard fixed-rate amortization
formula: for a positive rate (and for the zero-rate branch) a loan of
`principal` on which this payment is made every month for `n` months is
paid off exactly, the remaining balance after the `n`-th payment being 0. -/
theorem calculateMonthlyPayment_correct (principal annualRate : ℚ) (years : ℕ) :
    (annualRate = 0 →
      calculateMonthlyPayment principal annualRate years
        = principal / ((years : ℚ) * 12))
    ∧ (annualRate ≠ 0 →
      calculateMonthlyPayment principal annualRate years
        = principal * ((annualRate / 100 / 12)
              * (1 + annualRate / 100 / 12) ^ (years * 12))
            / ((1 + annualRate / 100 / 12) ^ (years * 12) - 1))
    ∧ (0 < annualRate → years ≠ 0 →
      loanBalance principal (annualRate / 100 / 12)
          (calculateMonthlyPayment principal annualRate years) (years * 12) = 0)
    ∧ (annualRate = 0 → years ≠ 0 →
      loanBalance principal 0
          (calculateMonthlyPayment principal annualRate years) (years * 12) = 0) := by
  refine ⟨fun h0 => by rw [calculateMonthlyPayment, if_pos h0], ?_, ?_, ?_⟩
  · intro hne
    rw [calculateMonthlyPayment, if_neg hne]
  · intro hpos hy
    have hr0 : 0 < annualRate / 100 / 12 := by positivity
    have hrne : annualRate / 100 / 12 ≠ 0 := ne_of_gt hr0
    have hne : annualRate ≠ 0 := ne_of_gt hpos
    have hpow : 1 < (1 + annualRate / 100 / 12) ^ (years * 12) :=
      one_lt_pow₀ (by linarith) (by omega)
    have hpowne : (1 + annualRate / 100 / 12) ^ (years * 12) - 1 ≠ 0 := by
      intro hc; rw [sub_eq_zero] at hc; rw [hc] at hpow; exact lt_irrefl 1 hpow
    rw [show calculateMonthlyPayment principal annualRate years
        = principal * (annualRate / 100 / 12
            * (1 + annualRate / 100 / 12) ^ (years * 12))
          / ((1 + annualRate / 100 / 12) ^ (years * 12) - 1) from by
      rw [calculateMonthlyPayment, if_neg hne]]
    exact annuity_pays_off principal _ hrne (years * 12) hpowne
  · intro h0 hy
    have h12 : ((years : ℚ) * 12) ≠ 0 := by positivity
    rw [loanBalance_zero_rate, calculateMonthlyPayment, if_pos h0]
    push_cast
    field_simp

/-- Witness for C3 at concrete inputs: a 1200 loan at 12% annual over one
year is exactly paid off by 12 monthly payments of the computed amount. -/
theorem calculateMonthlyPayment_correct_witness :
    loanBalance 1200 (12 / 100 / 12)
        (calculateMonthlyPayment 1200 12 1) (1 * 12) = 0 := by
  exact (calculateMonthlyPayment_correct 1200 12 1).2.2.1 (by decide) (by decide)

/-! ## Rental metrics: `calculateRentalAnalysis` vs the `Analysis` pre-save
hook (src/server/controllers/analysisController.js, lines 250-337, and
src/server/models/Analysis.js `analysisSchema.pre('save')`). -/

/-- The inputs shared by the controller's inline rental computation and the
`Analysis` document's rental/financing fields. -/
structure RentalInputs where
  monthlyRent : ℚ
  vacancyRate : ℚ
  managementFee : ℚ
  maintenanceReserve : ℚ
  insurance : ℚ
  propertyTaxes : ℚ
  hoa : ℚ
  utilities : ℚ
  purchasePrice : ℚ
  monthlyPayment : ℚ
deriving DecidableEq, Repr

/-- The four rental metrics. -/
structure RentalMetrics where
  annualRent : ℚ
  netOperatingIncome : ℚ
  capRate : ℚ
  cashFlow : ℚ
deriving DecidableEq, Repr

/-- The metrics computed inline by `calculateRentalAnalysis`
(lines 273-293 of the controller). -/
def calculateRentalAnalysisMetrics (i : RentalInputs) : RentalMetrics :=
  let annualRent := i.monthlyRent * 12
  let vacancyLoss := annualRent * (i.vacancyRate / 100)
  let managementCost := annualRent * (i.managementFee / 100)
  let maintenanceCost := annualRent * (i.maintenanceReserve / 100)
  let totalOperatingExpenses := vacancyLoss + managementCost + maintenanceCost
    + i.insurance + i.propertyTaxes + i.hoa + i.utilities
  let netOperatingIncome := annualRent - totalOperatingExpenses
  { annualRent := annualRent
    netOperatingIncome := netOperatingIncome
    capRate := netOperatingIncome / i.purchasePrice * 100
    cashFlow := i.monthlyRent - i.monthlyPayment }

/-- The rental-relevant fields of an `Analysis` document: the input fields
(`rental.*` rates and fixed expenses, `financials.purchasePrice`,
`financials.monthlyPayment`) together with the four stored metric fields. -/
structure AnalysisDoc where
  inputs : RentalInputs
  rental_annualRent : ℚ
  rental_netOperatingIncome : ℚ
  rental_capRate : ℚ
  rental_cashFlow : ℚ
deriving DecidableEq, Repr

/-- The rental-metrics portion of `analysisSchema.pre('save')`
(src/server/models/Analysis.js, lines 404-422): guarded by the truthiness
of `this.rental.monthlyRent`, with the cap-rate and cash-flow updates
further guarded by the truthiness of `financials.purchasePrice` and
`financials.monthlyPayment`. -/
def analysisPreSaveRental (d : AnalysisDoc) : AnalysisDoc :=
  if d.inputs.monthlyRent ≠ 0 then
    let annualRent := d.inputs.monthlyRent * 12
    let vacancyLoss := annualRent * (d.inputs.vacancyRate / 100)
    let managementFee := annualRent * (d.inputs.managementFee / 100)
    let maintenanceReserve := annualRent * (d.inputs.maintenanceReserve / 100)
    let netOperatingIncome := annualRent - vacancyLoss - managementFee
      - maintenanceReserve - d.inputs.insurance - d.inputs.propertyTaxes
      - d.inputs.hoa - d.inputs.utilities
    let d1 := { d with rental_annualRent := annualRent,
                       rental_netOperatingIncome := netOperatingIncome }
    let d2 := if d.inputs.purchasePrice ≠ 0 then
        { d1 with rental_capRate := netOperatingIncome / d.inputs.purchasePrice * 100 }
      else d1
    if d.inputs.monthlyPayment ≠ 0 then
      { d2 with rental_cashFlow := d.inputs.monthlyRent - d.inputs.monthlyPayment }
    else d2
  else d

/-- C4: for identical inputs, the rental metrics computed inline by
`calculateRentalAnalysis` coincide with the values recomputed by the
`Analysis` schema's pre-save middleware on a document carrying those same
fields: whenever the hook recomputes a metric (`monthlyRent` truthy, and
`purchasePrice` resp. `monthlyPayment` truthy for the cap rate resp. cash
flow), the recomputed value equals the controller's, whatever metric values
the document held before the save. -/
theorem calculateRentalAnalysis_matches_preSave (i : RentalInputs)
    (a n c f : ℚ) (hrent : i.monthlyRent ≠ 0) :
    (analysisPreSaveRental ⟨i, a, n, c, f⟩).rental_annualRent
        = (calculateRentalAnalysisMetrics i).annualRent
    ∧ (analysisPreSaveRental ⟨i, a, n, c, f⟩).rental_netOperatingIncome
        = (calculateRentalAnalysisMetrics i).netOperatingIncome
    ∧ (i.purchasePrice ≠ 0 →
        (analysisPreSaveRental ⟨i, a, n, c, f⟩).rental_capRate
          = (calculateRentalAnalysisMetrics i).capRate)
    ∧ (i.monthlyPayment ≠ 0 →
        (analysisPreSaveRental ⟨i, a, n, c, f⟩).rental_cashFlow
          = (calculateRentalAnalysisMetrics i).cashFlow) := by
  unfold analysisPreSaveRental calculateRentalAnalysisMetrics
  by_cases hp : i.purchasePrice ≠ 0 <;> by_cases hm : i.monthlyPayment ≠ 0 <;>
    simp only [hrent, hp, hm, if_pos, if_neg, if_true, if_false, ite_true,
      ite_false, not_true, not_false_iff, ne_eq, not_not] <;>
    refine ⟨by ring, by ring, ?_, ?_⟩ <;> intro h <;> first
      | exact h.elim
      | ring

/-- Witness for C4 at concrete inputs: rent 1000, 5% vacancy, 10%
management, 5% maintenance, 1200 insurance, 2400 taxes, 0 HOA, 0 utilities,
purchase price 100000, monthly payment 600. -/
theorem calculateRentalAnalysis_matches_preSave_witness :
    (analysisPreSaveRental ⟨⟨1000, 5, 10, 5, 1200, 2400, 0, 0, 100000, 600⟩,
        0, 0, 0, 0⟩).rental_netOperatingIncome
      = (calculateRentalAnalysisMetrics
          ⟨1000, 5, 10, 5, 1200, 2400, 0, 0, 100000, 600⟩).netOperatingIncome := by
  exact (calculateRentalAnalysis_matches_preSave
    ⟨1000, 5, 10, 5, 1200, 2400, 0, 0, 100000, 600⟩ 0 0 0 0 (by decide)).2.1

/-! ## `Lead.calculateROI` (src/server/models/Lead.js, method `calculateROI`)

The method reads `campaign.totalCost` (default 0), the optional
`campaign.roi` and the optional `conversion.dealValue`, and is guarded by
`if (this.campaign.totalCost > 0 && this.conversion.dealValue)` — a JS
truthiness test on `dealValue`, which fails both when the field is absent
and when it is 0. -/

/-- JavaScript truthiness of an optional numeric field: present and
non-zero. -/
def truthyNum (v : Option ℚ) : Bool :=
  match v with
  | none => false
  | some q => q != 0

/-- The fields of a `Lead` document read and written by `calculateROI`. -/
structure LeadCampaign where
  campaign_totalCost : ℚ
  campaign_roi : Option ℚ
  conversion_dealValue : Option ℚ
deriving DecidableEq, Repr

/-- The method `leadSchema.methods.calculateROI`: it mutates `campaign.roi` under the
truthiness guard and returns `this.campaign.roi`.  The result is the
updated document together with the returned value. -/
def calculateROI (l : LeadCampaign) : LeadCampaign × Option ℚ :=
  let l' :=
    if 0 < l.campaign_totalCost ∧ truthyNum l.conversion_dealValue then
      { l with campaign_roi := some ((l.conversion_dealValue.getD 0
          - l.campaign_totalCost) / l.campaign_totalCost * 100) }
    else l
  (l', l'.campaign_roi)

/-- The claim's description of `calculateROI`, word for word: the update
fires exactly when `campaign.totalCost > 0` and `conversion.dealValue` is
present. -/
def calculateROIClaimed (l : LeadCampaign) : LeadCampaign × Option ℚ :=
  let l' :=
    if 0 < l.campaign_totalCost ∧ l.conversion_dealValue ≠ none then
      { l with campaign_roi := some ((l.conversion_dealValue.getD 0
          - l.campaign_totalCost) / l.campaign_totalCost * 100) }
    else l
  (l', l'.campaign_roi)

/-- Counterexample to C5 as stated: a lead with `campaign.totalCost = 10`
and a present `conversion.dealValue = 0`.  The claim says `campaign.roi` is
set (to `((0 - 10) / 10) * 100 = -100`), but the code's truthiness guard
rejects the value 0 and leaves `campaign.roi` untouched. -/
theorem calculateROI_present_counterexample :
    (calculateROIClaimed ⟨10, none, some 0⟩).1.campaign_roi = some (-100)
    ∧ (calculateROI ⟨10, none, some 0⟩).1.campaign_roi = none
    ∧ (0 : ℚ) < (10 : ℚ) ∧ (some (0 : ℚ)) ≠ (none : Option ℚ) := by
  refine ⟨?_, ?_, by norm_num, by simp⟩
  · have h : ((0 : ℚ) < 10 ∧ (some (0 : ℚ)) ≠ none) := ⟨by norm_num, by simp⟩
    simp only [calculateROIClaimed, if_pos h]
    norm_num
  · simp only [calculateROI, truthyNum]
    norm_num

/-- C5, amended: `calculateROI` sets `campaign.roi` to
`((dealValue - totalCost) / totalCost) * 100` exactly when
`campaign.totalCost > 0` and `conversion.dealValue` is present *and
non-zero*; in every other case the lead is left unchanged; and the returned
value is the (possibly unchanged) `campaign.roi`. -/
theorem calculateROI_sets_roi (l : LeadCampaign) :
    (∀ d : ℚ, l.conversion_dealValue = some d → 0 < l.campaign_totalCost →
      d ≠ 0 →
      (calculateROI l).1.campaign_roi
        = some ((d - l.campaign_totalCost) / l.campaign_totalCost * 100))
    ∧ (¬ (0 < l.campaign_totalCost ∧ truthyNum l.conversion_dealValue) →
        (calculateROI l).1 = l)
    ∧ (calculateROI l).2 = (calculateROI l).1.campaign_roi
    ∧ (calculateROI l).1.campaign_totalCost = l.campaign_totalCost
    ∧ (calculateROI l).1.conversion_dealValue = l.conversion_dealValue := by
  refine ⟨?_, ?_, ?_, ?_, ?_⟩
  · intro d hd hpos hdne
    have ht : truthyNum (some d) = true := by simp [truthyNum, hdne]
    simp [calculateROI, hpos, hd, ht]
  · intro hneg
    simp [calculateROI, hneg]
  · unfold calculateROI
    split <;> rfl
  · unfold calculateROI
    split <;> rfl
  · unfold calculateROI
    split <;> rfl

/-- Witness for C5 (amended) at concrete inputs: totalCost 10, dealValue
25 gives ROI `(25 - 10) / 10 * 100 = 150`. -/
theorem calculateROI_sets_roi_witness :
    (calculateROI ⟨10, none, some 25⟩).1.campaign_roi
      = some ((25 - 10) / 10 * 100) := by
  exact (calculateROI_sets_roi ⟨10, none, some 25⟩).1 25 rfl (by decide) (by decide)

/-! ## The foreclosure scraper
(src/server/services/dataCollection/foreclosureScraper.js)

A scraped item is the record extracted from a listing page (`scrapeSite`,
lines 95-106); every field is an optional string.  The helper parsers
(`parseAddress`, `parsePrice`, `parseForeclosureStatus`, `parseDate`,
`calculateCompleteness`, lines 286-336) normalize these strings, and
`processAndSaveData` (lines 211-246) upserts the resulting records into the
`Property` collection, modelled as a list of stored documents. -/

/-- JavaScript truthiness of an optional string field: present and
non-empty. -/
def truthyStr (v : Option String) : Bool :=
  match v with
  | none => false
  | some s => s != ""

/-- JavaScript `String.prototype.toLowerCase` for the ASCII strings the
scraper compares against: lowercase every character. -/
def jsToLower (s : String) : String :=
  String.mk (s.toList.map Char.toLower)

/-- Whether `needle` occurs as a contiguous sublist of `haystack`. -/
def containsSub (haystack needle : List Char) : Bool :=
  match haystack with
  | [] => needle.isEmpty
  | h :: t => needle.isPrefixOf (h :: t) || containsSub t needle

/-- JavaScript `String.prototype.includes`: the search string occurs as a
contiguous substring. -/
def jsIncludes (s sub : String) : Bool :=
  containsSub s.toList sub.toList

/-- The parser `parseForeclosureStatus(statusString)` (lines 309-317): falsy input →
`'Pre-Foreclosure'`; otherwise match keywords on the lowercased string,
defaulting to `'Pre-Foreclosure'`. -/
def parseForeclosureStatus (statusString : Option String) : String :=
  match statusString with
  | none => "Pre-Foreclosure"
  | some s =>
      if s = "" then "Pre-Foreclosure"
      else
        let status := jsToLower s
        if jsIncludes status "auction" then "Auction"
        else if jsIncludes status "reo" || jsIncludes status "bank owned" then "REO"
        else if jsIncludes status "sold" then "Sold"
        else "Pre-Foreclosure"

/-- The `foreclosureStatus` enum of the `Property` schema
(src/server/models/Property.js, lines 31-35). -/
def foreclosureStatusEnum : List String :=
  ["Pre-Foreclosure", "Auction", "REO", "Sold", "Cancelled"]

/-- A parsed address (`parseAddress`'s return shape). -/
structure Address where
  street : String
  city : String
  state : String
  zipCode : String
deriving DecidableEq, Repr

/-- The parser `parseAddress(addressString)` (lines 286-300): `null` on falsy input;
split on commas and trim; `null` when fewer than three parts; otherwise
street, city, and state/zip from the third part split on spaces. -/
def parseAddress (addressString : Option String) : Option Address :=
  match addressString with
  | none => none
  | some s =>
      if s = "" then none
      else
        let parts := (s.splitOn ",").map String.trim
        if parts.length < 3 then none
        else some
          { street := parts.getD 0 ""
            city := parts.getD 1 ""
            state := ((parts.getD 2 "").splitOn " ").getD 0 ""
            zipCode := ((parts.getD 2 "").splitOn " ").getD 1 "" }

/-- Decimal value of a list of digit characters. -/
def digitsToNat (l : List Char) : ℕ :=
  l.foldl (fun acc c => acc * 10 + (c.toNat - 48)) 0

/-- JavaScript `parseFloat` on a string containing only digits and dots:
the longest prefix `digits [ '.' digits ]`; `none` models `NaN` (no digit
in the prefix). -/
def jsParseFloatDigits (s : String) : Option ℚ :=
  let cs := s.toList
  let intPart := cs.takeWhile Char.isDigit
  let rest := cs.drop intPart.length
  let fracPart :=
    if rest.head? = some '.' then (rest.drop 1).takeWhile Char.isDigit else []
  if intPart.isEmpty ∧ fracPart.isEmpty then none
  else some ((digitsToNat intPart : ℚ)
    + (digitsToNat fracPart : ℚ) / 10 ^ fracPart.length)

/-- The parser `parsePrice(priceString)` (lines 302-307): strip every character that
is not a digit or a dot, then `parseFloat(cleaned) || null` — both `NaN`
and `0` are falsy and yield `null`. -/
def parsePrice (priceString : Option String) : Option ℚ :=
  match priceString with
  | none => none
  | some s =>
      if s = "" then none
      else
        let cleaned := String.mk (s.toList.filter
          (fun c => c.isDigit || c = '.'))
        match jsParseFloatDigits cleaned with
        | none => none
        | some v => if v = 0 then none else some v

/-- The parser `parseDate(dateString)` (lines 319-327): falsy input → `null`.  The
`Date` value built from a non-empty string is kept abstract as the raw
string; calendar parsing plays no role in any claim. -/
def parseDate (dateString : Option String) : Option String :=
  match dateString with
  | none => none
  | some s => if s = "" then none else some s

/-- An item scraped from a listing page (`scrapeSite`, lines 95-106; the
optional `lender` is read by `processPropertyData` and absent from the
scraped shape). -/
structure ScrapedItem where
  address : Option String
  price : Option String
  status : Option String
  auctionDate : Option String
  details : Option String
  lender : Option String
deriving DecidableEq, Repr

/-- The helper `calculateCompleteness(item)` (lines 329-336): 25 points per truthy
field among address, price, status, auctionDate. -/
def calculateCompleteness (item : ScrapedItem) : ℚ :=
  (if truthyStr item.address then 25 else 0)
  + (if truthyStr item.price then 25 else 0)
  + (if truthyStr item.status then 25 else 0)
  + (if truthyStr item.auctionDate then 25 else 0)

/-- A stored `Property` document, restricted to the fields
`processPropertyData` writes. -/
structure StoredProperty where
  address : Address
  foreclosureStatus : String
  foreclosureDetails_openingBid : Option ℚ
  foreclosureDetails_auctionDate : Option String
  foreclosureDetails_lender : String
  leadInfo_source : String
  dataQuality_completeness : ℚ
  dataQuality_accuracy : ℚ
deriving DecidableEq, Repr

/-- The normalizer `processPropertyData(item, source)` (lines 248-284): `null` when the
address fails to parse, otherwise the property record assembled from the
parsed fields (`item.lender || 'Unknown'`, default accuracy 75). -/
def processPropertyData (item : ScrapedItem) (source : String) :
    Option StoredProperty :=
  match parseAddress item.address with
  | none => none
  | some address =>
      some
        { address := address
          foreclosureStatus := parseForeclosureStatus item.status
          foreclosureDetails_openingBid := parsePrice item.price
          foreclosureDetails_auctionDate := parseDate item.auctionDate
          foreclosureDetails_lender :=
            if truthyStr item.lender then item.lender.getD "" else "Unknown"
          leadInfo_source := source
          dataQuality_completeness := calculateCompleteness item
          dataQuality_accuracy := 75 }

/-- The match predicate of `Property.findOne({'address.street': ...,
'address.city': ..., 'address.state': ...})` (lines 220-224). -/
def matchesTriple (q : StoredProperty) (s c st : String) : Bool :=
  q.address.street == s && q.address.city == c && q.address.state == st

/-- The lookup `Property.findOne` by address triple over the stored collection. -/
def findOneByAddress (db : List StoredProperty) (a : Address) :
    Option StoredProperty :=
  db.find? (fun q => matchesTriple q a.street a.city a.state)

/-- The update `Property.findByIdAndUpdate(existingProperty._id, property)`
(line 232): replace, in place, the first stored document matching the
address triple (the one `findOne` returned) with the new record. -/
def updateFirstByAddress : List StoredProperty → StoredProperty →
    List StoredProperty
  | [], _ => []
  | q :: rest, p =>
      if matchesTriple q p.address.street p.address.city p.address.state then
        p :: rest
      else q :: updateFirstByAddress rest p

/-- One iteration of the `for (const item of rawData)` loop of
`processAndSaveData` (lines 215-239), acting on the pair (stored
collection, `processedProperties`): skip when `processPropertyData` gives
`null`; create when no stored document matches the address triple; update
in place otherwise (updates are not pushed to `processedProperties`). -/
def processAndSaveDataStep (source : String)
    (acc : List StoredProperty × List StoredProperty) (item : ScrapedItem) :
    List StoredProperty × List StoredProperty :=
  match processPropertyData item source with
  | none => acc
  | some property =>
      match findOneByAddress acc.1 property.address with
      | none => (acc.1 ++ [property], acc.2 ++ [property])
      | some _ => (updateFirstByAddress acc.1 property, acc.2)

/-- The upsert loop `processAndSaveData(rawData, source)` over an initial stored
collection `db`: returns the final collection together with the
`processedProperties` the call returns. -/
def processAndSaveData (rawData : List ScrapedItem) (source : String)
    (db : List StoredProperty) :
    List StoredProperty × List StoredProperty :=
  rawData.foldl (processAndSaveDataStep source) (db, [])

/-- The number of stored documents sharing an address triple. -/
def countTriple (db : List StoredProperty) (s c st : String) : ℕ :=
  (db.filter (fun q => matchesTriple q s c st)).length

lemma matchesTriple_congr {q p : StoredProperty}
    (h : matchesTriple q p.address.street p.address.city p.address.state = true)
    (s c st : String) : matchesTriple p s c st = matchesTriple q s c st := by
  unfold matchesTriple at *
  simp only [Bool.and_eq_true, beq_iff_eq] at h
  obtain ⟨⟨h1, h2⟩, h3⟩ := h
  rw [h1, h2, h3]

lemma countTriple_cons (x : StoredProperty) (l : List StoredProperty)
    (s c st : String) :
    countTriple (x :: l) s c st
      = (if matchesTriple x s c st then 1 else 0) + countTriple l s c st := by
  by_cases h : matchesTriple x s c st <;>
    simp [countTriple, List.filter_cons, h, Nat.add_comm]

lemma countTriple_append (l₁ l₂ : List StoredProperty) (s c st : String) :
    countTriple (l₁ ++ l₂) s c st
      = countTriple l₁ s c st + countTriple l₂ s c st := by
  simp [countTriple, List.filter_append]

/-- In-place update by address triple never changes any triple's count:
the replaced document and its replacement share the triple. -/
lemma countTriple_updateFirst (db : List StoredProperty) (p : StoredProperty)
    (s c st : String) :
    countTriple (updateFirstByAddress db p) s c st = countTriple db s c st := by
  induction db with
  | nil => rfl
  | cons q rest ih =>
      unfold updateFirstByAddress
      by_cases h : matchesTriple q p.address.street p.address.city
          p.address.state
      · rw [if_pos h, countTriple_cons, countTriple_cons,
          matchesTriple_congr h]
      · rw [if_neg h, countTriple_cons, countTriple_cons, ih]

/-- When `findOne` returns no document, no stored document carries the
searched triple. -/
lemma findOneByAddress_none_count {db : List StoredProperty} {a : Address}
    (h : findOneByAddress db a = none) :
    countTriple db a.street a.city a.state = 0 := by
  unfold findOneByAddress at h
  rw [List.find?_eq_none] at h
  unfold countTriple
  rw [List.length_eq_zero, List.filter_eq_nil_iff]
  exact fun x hx => h x hx

/-- One loop iteration never pushes a triple's count past `max count 1`. -/
lemma countTriple_step (source : String)
    (acc : List StoredProperty × List StoredProperty) (item : ScrapedItem)
    (s c st : String) :
    countTriple (processAndSaveDataStep source acc item).1 s c st
      ≤ max (countTriple acc.1 s c st) 1 := by
  unfold processAndSaveDataStep
  cases hpd : processPropertyData item source with
  | none => exact le_max_left _ _
  | some p =>
      cases hf : findOneByAddress acc.1 p.address with
      | none =>
          simp only [hf]
          rw [countTriple_append, countTriple_cons]
          by_cases hm : matchesTriple p s c st
          · have h0 : countTriple acc.1 s c st = 0 := by
              have hz := findOneByAddress_none_count hf
              unfold matchesTriple at hm
              simp only [Bool.and_eq_true, beq_iff_eq] at hm
              obtain ⟨⟨h1, h2⟩, h3⟩ := hm
              rw [h1, h2, h3] at hz
              exact hz
            rw [h0]
            simp [hm, countTriple]
          · simp [hm, countTriple]
      | some q =>
          simp only [hf]
          rw [countTriple_updateFirst]
          exact le_max_left _ _

lemma countTriple_fold (items : List ScrapedItem) (source : String)
    (acc : List StoredProperty × List StoredProperty) (s c st : String) :
    countTriple (items.foldl (processAndSaveDataStep source) acc).1 s c st
      ≤ max (countTriple acc.1 s c st) 1 := by
  induction items generalizing acc with
  | nil => exact le_max_left _ _
  | cons item rest ih =>
      rw [List.foldl_cons]
      refine le_trans (ih (processAndSaveDataStep source acc item)) ?_
      have h := countTriple_step source acc item s c st
      have : max (countTriple (processAndSaveDataStep source acc item).1 s c st) 1
          ≤ max (max (countTriple acc.1 s c st) 1) 1 :=
        max_le_max h le_rfl
      simpa [max_assoc] using this

/-- C6: `processAndSaveData` upserts by address: a run never raises the
number of stored properties sharing one (street, city, state) triple above
one (creation happens only when no stored property carries the triple;
otherwise the existing record is updated in place); and an item whose
address string fails to parse — in particular one with fewer than three
comma-separated parts, via `parseAddress` returning `null` — is skipped
with no write at all. -/
theorem processAndSaveData_upsert :
    (∀ (items : List ScrapedItem) (source : String)
        (db : List StoredProperty) (s c st : String),
      countTriple (processAndSaveData items source db).1 s c st
        ≤ max (countTriple db s c st) 1)
    ∧ (∀ (item : ScrapedItem) (source : String) (db : List StoredProperty),
        parseAddress item.address = none →
        processAndSaveData [item] source db = (db, []))
    ∧ (∀ s : String, ((s.splitOn ",").map String.trim).length < 3 →
        parseAddress (some s) = none) := by
  refine ⟨?_, ?_, ?_⟩
  · intro items source db s c st
    exact countTriple_fold items source (db, []) s c st
  · intro item source db h
    simp [processAndSaveData, processAndSaveDataStep, processPropertyData, h]
  · intro s h
    by_cases h0 : s = ""
    · simp [parseAddress, h0]
    · have h' : (s.splitOn ",").length < 3 := by simpa using h
      simp [parseAddress, h0, h']

/-- Witness for C6 at concrete inputs: an item with no address is skipped,
leaving the collection unchanged and producing no processed property. -/
theorem processAndSaveData_upsert_witness :
    processAndSaveData [⟨none, none, none, none, none, none⟩]
        "County Records" [] = ([], []) := by
  exact processAndSaveData_upsert.2.1 ⟨none, none, none, none, none, none⟩
    "County Records" [] rfl

/-- C10: `parseForeclosureStatus` is total: for every input, including
missing and empty strings, it returns one of `'Pre-Foreclosure'`,
`'Auction'`, `'REO'`, `'Sold'`, each a member of the `Property` schema's
`foreclosureStatus` enum; it never produces `'Cancelled'`; and a missing,
empty or unrecognized status maps to `'Pre-Foreclosure'`. -/
theorem parseForeclosureStatus_total (statusString : Option String) :
    parseForeclosureStatus statusString
        ∈ (["Pre-Foreclosure", "Auction", "REO", "Sold"] : List String)
    ∧ parseForeclosureStatus statusString ∈ foreclosureStatusEnum
    ∧ parseForeclosureStatus statusString ≠ "Cancelled"
    ∧ parseForeclosureStatus none = "Pre-Foreclosure"
    ∧ parseForeclosureStatus (some "") = "Pre-Foreclosure"
    ∧ (∀ s : String, jsIncludes (jsToLower s) "auction" = false →
        jsIncludes (jsToLower s) "reo" = false →
        jsIncludes (jsToLower s) "bank owned" = false →
        jsIncludes (jsToLower s) "sold" = false →
        parseForeclosureStatus (some s) = "Pre-Foreclosure") := by
  have hmem : parseForeclosureStatus statusString
      ∈ (["Pre-Foreclosure", "Auction", "REO", "Sold"] : List String) := by
    cases statusString with
    | none => simp [parseForeclosureStatus]
    | some s =>
        simp only [parseForeclosureStatus]
        split_ifs <;> simp
  have hmem' : parseForeclosureStatus statusString = "Pre-Foreclosure"
      ∨ parseForeclosureStatus statusString = "Auction"
      ∨ parseForeclosureStatus statusString = "REO"
      ∨ parseForeclosureStatus statusString = "Sold" := by simpa using hmem
  refine ⟨hmem, ?_, ?_, rfl, rfl, ?_⟩
  · rcases hmem' with h | h | h | h <;> simp [foreclosureStatusEnum, h]
  · rcases hmem' with h | h | h | h <;> rw [h] <;> decide
  · intro s h1 h2 h3 h4
    simp only [parseForeclosureStatus]
    by_cases h0 : s = ""
    · simp [h0]
    · simp [h0, h1, h2, h3, h4]

/-- Witness for C10 at a concrete input: the empty status string maps to
`'Pre-Foreclosure'`. -/
theorem parseForeclosureStatus_total_witness :
    parseForeclosureStatus (some "") = "Pre-Foreclosure" := by
  exact (parseForeclosureStatus_total (some "")).2.2.2.2.2 ""
    (by decide) (by decide) (by decide) (by decide)

/-! ## `protect` (src/server/middleware/auth.js, lines 288-320)

Inputs of one request: the `Authorization` header, the JWT verifier
(`jwt.verify(token, secret)`, returning the decoded user id or throwing —
it throws in particular on `undefined` and on the empty string), and the
user lookup (`User.findById`, which can itself throw, caught by the same
`catch` block).  The result is either a sent response or a call of the
downstream handler with `req.user` attached. -/

/-- JavaScript `String.prototype.startsWith`. -/
def jsStartsWith (s p : String) : Bool :=
  p.toList.isPrefixOf s.toList

/-- Split a character list on every occurrence of a separator character
(JavaScript `split` keeps empty pieces). -/
def splitOnChar (c : Char) : List Char → List (List Char)
  | [] => [[]]
  | x :: xs =>
      match splitOnChar c xs with
      | [] => [[]]
      | y :: ys => if x = c then [] :: y :: ys else (x :: y) :: ys

/-- JavaScript `s.split(' ')`: split on every single space. -/
def jsSplitSpace (s : String) : List String :=
  (splitOnChar ' ' s.toList).map String.mk

/-- The user document fields `protect` reads. -/
structure AuthUser where
  id : String
  isActive : Bool
deriving DecidableEq, Repr

/-- Outcome of the `protect` middleware on one request. -/
inductive AuthOutcome where
  | respond (status : Nat) (message : String)
  | callNext (user : AuthUser)
deriving DecidableEq, Repr

/-- The middleware `protect(req, res, next)`: when the header is present and starts with
`'Bearer'`, take `header.split(' ')[1]` as the token and run the `try`
block — `jwt.verify` throwing (missing/empty/invalid token), `findById`
throwing, a missing user, or a deactivated user each yield a 401; success
calls `next`.  Otherwise `token` stays unset and the trailing
`if (!token)` responds 401 `'Not authorized, no token'`. -/
def protect (authHeader : Option String)
    (verify : String → Option String)
    (findUser : String → Except Unit (Option AuthUser)) : AuthOutcome :=
  match authHeader with
  | none => .respond 401 "Not authorized, no token"
  | some h =>
      if jsStartsWith h "Bearer" then
        match (jsSplitSpace h).get? 1 with
        | none => .respond 401 "Not authorized, token failed"
        | some t =>
            if t = "" then .respond 401 "Not authorized, token failed"
            else
              match verify t with
              | none => .respond 401 "Not authorized, token failed"
              | some decodedId =>
                  match findUser decodedId with
                  | .error _ => .respond 401 "Not authorized, token failed"
                  | .ok none => .respond 401 "Not authorized, user not found"
                  | .ok (some u) =>
                      if u.isActive = false then
                        .respond 401 "Not authorized, account deactivated"
                      else .callNext u
      else .respond 401 "Not authorized, no token"

/-- C8: with no `Authorization` header, or one not starting with
`'Bearer'`, `protect` responds 401 `'Not authorized, no token'` and never
calls the handler; with a Bearer header the handler runs if and only if a
token is present and verifies, the referenced user exists, and that user is
active; and every failing case responds 401 — never 500. -/
theorem protect_auth (verify : String → Option String)
    (findUser : String → Except Unit (Option AuthUser)) :
    (protect none verify findUser = .respond 401 "Not authorized, no token")
    ∧ (∀ h : String, jsStartsWith h "Bearer" = false →
        protect (some h) verify findUser
          = .respond 401 "Not authorized, no token")
    ∧ (∀ (h : String) (u : AuthUser), jsStartsWith h "Bearer" = true →
        (protect (some h) verify findUser = .callNext u ↔
          ∃ t decodedId, (jsSplitSpace h).get? 1 = some t ∧ t ≠ ""
            ∧ verify t = some decodedId
            ∧ findUser decodedId = .ok (some u) ∧ u.isActive = true))
    ∧ (∀ (header : Option String) (status : Nat) (m : String),
        protect header verify findUser = .respond status m → status = 401) := by
  refine ⟨rfl, ?_, ?_, ?_⟩
  · intro h hb
    simp [protect, hb]
  · intro h u hb
    simp only [protect, hb, if_true]
    cases ht : (jsSplitSpace h).get? 1 with
    | none => simp [ht]
    | some t =>
        simp only [ht]
        by_cases h0 : t = ""
        · simp [ht, h0]
        · simp only [h0, if_false, ite_false]
          cases hv : verify t with
          | none => simp [ht, hv, h0]
          | some decodedId =>
              simp only [hv]
              cases hf : findUser decodedId with
              | error e => simp [ht, hv, hf, h0]
              | ok uo =>
                  cases uo with
                  | none => simp [ht, hv, hf, h0]
                  | some v =>
                      simp only [hf]
                      by_cases ha : v.isActive = false
                      · rw [if_pos ha]
                        constructor
                        · intro hc; cases hc
                        · rintro ⟨t', d', ht', h0', hv', hf', hu'⟩
                          cases ht'
                          rw [hv] at hv'; cases hv'
                          rw [hf] at hf'
                          injection hf' with h1
                          injection h1 with h2
                          subst h2
                          rw [hu'] at ha
                          cases ha
                      · rw [if_neg ha]
                        simp only [Bool.not_eq_false] at ha
                        constructor
                        · intro hc
                          injection hc with h2
                          subst h2
                          exact ⟨t, decodedId, rfl, h0, hv, hf, ha⟩
                        · rintro ⟨t', d', ht', h0', hv', hf', hu'⟩
                          cases ht'
                          rw [hv] at hv'; cases hv'
                          rw [hf] at hf'
                          injection hf' with h1
                          injection h1 with h2
                          rw [h2]
  · intro header status m hr
    cases header with
    | none => cases hr; rfl
    | some h =>
        simp only [protect] at hr
        by_cases hb : jsStartsWith h "Bearer"
        · simp only [hb, if_true, ite_true] at hr
          cases ht : (jsSplitSpace h).get? 1 with
          | none => simp only [ht] at hr; cases hr; rfl
          | some t =>
              simp only [ht] at hr
              by_cases h0 : t = ""
              · simp only [h0, if_true, ite_true] at hr; cases hr; rfl
              · simp only [h0, if_false, ite_false] at hr
                cases hv : verify t with
                | none => simp only [hv] at hr; cases hr; rfl
                | some decodedId =>
                    simp only [hv] at hr
                    cases hf : findUser decodedId with
                    | error e => simp only [hf] at hr; cases hr; rfl
                    | ok uo =>
                        simp only [hf] at hr
                        cases uo with
                        | none => cases hr; rfl
                        | some v =>
                            dsimp only at hr
                            by_cases ha : v.isActive = false
                            · rw [if_pos ha] at hr
                              cases hr; rfl
                            · rw [if_neg ha] at hr
                              cases hr
        · simp only [hb, if_false, ite_false] at hr
          cases hr; rfl

/-- Witness for C8 at concrete inputs: a valid Bearer token for an active
user calls the handler; a non-Bearer header is rejected with
`'Not authorized, no token'`. -/
theorem protect_auth_witness :
    protect (some "Bearer tok")
        (fun t => if t = "tok" then some "u1" else none)
        (fun i => if i = "u1" then .ok (some ⟨"u1", true⟩) else .ok none)
      = .callNext ⟨"u1", true⟩
    ∧ protect (some "Basic tok")
        (fun t => if t = "tok" then some "u1" else none)
        (fun i => if i = "u1" then .ok (some ⟨"u1", true⟩) else .ok none)
      = .respond 401 "Not authorized, no token" := by
  constructor
  · exact ((protect_auth _ _).2.2.1 "Bearer tok" ⟨"u1", true⟩ (by decide)).mpr
      ⟨"tok", "u1", by decide, by decide, by simp, by simp, rfl⟩
  · exact (protect_auth _ _).2.1 "Basic tok" (by decide)

/-! ## The `Lead` pre-save middleware (src/server/models/Lead.js,
`leadSchema.pre('save')`, with the `score` field bounds of the schema). -/

/-- The `Lead` document fields the pre-save hook reads and writes. -/
structure LeadRecord where
  leadId : String
  contact_name : Option String
  contact_phone : Option String
  contact_email : Option String
  details_motivation : Option String
  details_timeline : Option String
  score_motivation : ℚ
  score_timeline : ℚ
  score_equity : ℚ
  score_condition : ℚ
  score_total : ℚ
  dataQuality_completeness : ℚ
deriving DecidableEq, Repr

/-- The hook `leadSchema.pre('save')`: generate `leadId` when falsy (the random hex
suffix is passed in as `freshId`), set `score.total` to the sum of the four
factors, and set `dataQuality.completeness` to 20 points per truthy field
among contact name/phone/email and details motivation/timeline. -/
def leadPreSave (freshId : String) (l : LeadRecord) : LeadRecord :=
  let l1 := if l.leadId = "" then { l with leadId := "LEAD-" ++ freshId } else l
  let total := l.score_motivation + l.score_timeline + l.score_equity
    + l.score_condition
  let completeness : ℚ :=
    (if truthyStr l.contact_name then 20 else 0)
    + (if truthyStr l.contact_phone then 20 else 0)
    + (if truthyStr l.contact_email then 20 else 0)
    + (if truthyStr l.details_motivation then 20 else 0)
    + (if truthyStr l.details_timeline then 20 else 0)
  { l1 with score_total := total, dataQuality_completeness := completeness }

/-- The number of present (truthy) fields among contact name/phone/email
and details motivation/timeline. -/
def presentFieldCount (l : LeadRecord) : ℕ :=
  (if truthyStr l.contact_name then 1 else 0)
  + (if truthyStr l.contact_phone then 1 else 0)
  + (if truthyStr l.contact_email then 1 else 0)
  + (if truthyStr l.details_motivation then 1 else 0)
  + (if truthyStr l.details_timeline then 1 else 0)

/-- C9: every `Lead` document that completes the pre-save middleware
satisfies `score.total = motivation + timeline + equity + condition` and
`dataQuality.completeness = 20 *` (number of present fields among contact
name/phone/email, details motivation/timeline); under the schema's bounds
`0 ≤ factor ≤ 25` the saved total lies in `[0, 100]`. -/
theorem leadPreSave_invariants (freshId : String) (l : LeadRecord)
    (hm0 : 0 ≤ l.score_motivation) (hm1 : l.score_motivation ≤ 25)
    (ht0 : 0 ≤ l.score_timeline) (ht1 : l.score_timeline ≤ 25)
    (he0 : 0 ≤ l.score_equity) (he1 : l.score_equity ≤ 25)
    (hc0 : 0 ≤ l.score_condition) (hc1 : l.score_condition ≤ 25) :
    (leadPreSave freshId l).score_total
        = (leadPreSave freshId l).score_motivation
          + (leadPreSave freshId l).score_timeline
          + (leadPreSave freshId l).score_equity
          + (leadPreSave freshId l).score_condition
    ∧ 0 ≤ (leadPreSave freshId l).score_total
    ∧ (leadPreSave freshId l).score_total ≤ 100
    ∧ (leadPreSave freshId l).dataQuality_completeness
        = 20 * (presentFieldCount l : ℚ) := by
  have hfields : (leadPreSave freshId l).score_motivation = l.score_motivation
      ∧ (leadPreSave freshId l).score_timeline = l.score_timeline
      ∧ (leadPreSave freshId l).score_equity = l.score_equity
      ∧ (leadPreSave freshId l).score_condition = l.score_condition
      ∧ (leadPreSave freshId l).score_total
          = l.score_motivation + l.score_timeline + l.score_equity
            + l.score_condition := by
    unfold leadPreSave
    by_cases h : l.leadId = "" <;> simp [h]
  obtain ⟨f1, f2, f3, f4, f5⟩ := hfields
  refine ⟨by rw [f1, f2, f3, f4, f5], by rw [f5]; linarith,
    by rw [f5]; linarith, ?_⟩
  have hcomp : (leadPreSave freshId l).dataQuality_completeness
      = (if truthyStr l.contact_name then (20 : ℚ) else 0)
        + (if truthyStr l.contact_phone then 20 else 0)
        + (if truthyStr l.contact_email then 20 else 0)
        + (if truthyStr l.details_motivation then 20 else 0)
        + (if truthyStr l.details_timeline then 20 else 0) := by
    unfold leadPreSave
    by_cases h : l.leadId = "" <;> simp [h]
  rw [hcomp]
  unfold presentFieldCount
  cases truthyStr l.contact_name <;> cases truthyStr l.contact_phone <;>
    cases truthyStr l.contact_email <;> cases truthyStr l.details_motivation <;>
    cases truthyStr l.details_timeline <;> norm_num

/-- Witness for C9 at a concrete lead: factors 15/20/10/5 give total 50 in
`[0, 100]`, and name + phone present give completeness 40. -/
theorem leadPreSave_invariants_witness :
    (leadPreSave "ABCD1234"
        ⟨"", some "Jane Roe", some "555-0100", none, none, none,
          15, 20, 10, 5, 0, 0⟩).score_total ≤ 100 := by
  exact (leadPreSave_invariants "ABCD1234"
    ⟨"", some "Jane Roe", some "555-0100", none, none, none, 15, 20, 10, 5, 0, 0⟩
    (by norm_num) (by norm_num) (by norm_num) (by norm_num)
    (by norm_num) (by norm_num) (by norm_num) (by norm_num)).2.2.1

/-! ## The property controller
(src/server/controllers/propertyController.js)

Each handler is a `try`/`catch` around awaited database calls; the calls'
outcomes are the handler's inputs here (`Except.error` = the call threw,
caught by the `catch` block).  A response is either a success
(`res.json`/`res.send`, with its status code) or a failure
(`res.status(...).json({ success: false, message })`). -/

/-- A property-controller HTTP response. -/
inductive HandlerResponse where
  | success (status : Nat)
  | failure (status : Nat) (message : String)
deriving DecidableEq, Repr

/-- The uniform `catch` response:
`res.status(500).json({ success: false, message: 'Server error' })`. -/
def serverError : HandlerResponse := .failure 500 "Server error"

/-- The not-found response:
`res.status(404).json({ success: false, message: 'Property not found' })`. -/
def propertyNotFound : HandlerResponse := .failure 404 "Property not found"

/-- The handler `getProperties` (lines 9-75): build filter, query with pagination,
count; any throw → 500, otherwise a 200 with data and pagination. -/
def getProperties (query : Except Unit (List StoredProperty × Nat)) :
    HandlerResponse :=
  match query with
  | .error _ => serverError
  | .ok _ => .success 200

/-- The handler `getProperty` (lines 78-95): `findById`; throw → 500, no document →
404, otherwise 200. -/
def getProperty (find : Except Unit (Option StoredProperty)) :
    HandlerResponse :=
  match find with
  | .error _ => serverError
  | .ok none => propertyNotFound
  | .ok (some _) => .success 200

/-- The handler `createProperty` (lines 98-117): `Property.create` then
`generateLead`; a throw in either → 500, otherwise 201. -/
def createProperty (create : Except Unit StoredProperty)
    (genLead : Except Unit Unit) : HandlerResponse :=
  match create with
  | .error _ => serverError
  | .ok _ =>
      match genLead with
      | .error _ => serverError
      | .ok _ => .success 201

/-- The handler `updateProperty` (lines 120-137): `findByIdAndUpdate`; throw → 500,
`null` → 404, otherwise 200. -/
def updateProperty (upd : Except Unit (Option StoredProperty)) :
    HandlerResponse :=
  match upd with
  | .error _ => serverError
  | .ok none => propertyNotFound
  | .ok (some _) => .success 200

/-- The handler `deleteProperty` (lines 140-157): soft delete by `findByIdAndUpdate`;
throw → 500, `null` → 404, otherwise 200. -/
def deleteProperty (upd : Except Unit (Option StoredProperty)) :
    HandlerResponse :=
  match upd with
  | .error _ => serverError
  | .ok none => propertyNotFound
  | .ok (some _) => .success 200

/-- The handler `enrichProperty` (lines 160-176): `findById` then
`enrichPropertyData`; throw in either → 500, missing document → 404,
otherwise 200. -/
def enrichProperty (find : Except Unit (Option StoredProperty))
    (enrich : Except Unit StoredProperty) : HandlerResponse :=
  match find with
  | .error _ => serverError
  | .ok none => propertyNotFound
  | .ok (some _) =>
      match enrich with
      | .error _ => serverError
      | .ok _ => .success 200

/-- The handler `getPropertyAnalytics` (lines 179-252): aggregate queries; throw →
500, otherwise 200. -/
def getPropertyAnalytics (agg : Except Unit Unit) : HandlerResponse :=
  match agg with
  | .error _ => serverError
  | .ok _ => .success 200

/-- The handler `bulkUpdateProperties` (lines 255-277): 400 when `propertyIds` is
missing, not an array (both modelled by `none`) or empty; then
`updateMany`; throw → 500, otherwise 200. -/
def bulkUpdateProperties (propertyIds : Option (List String))
    (updateMany : Except Unit Nat) : HandlerResponse :=
  match propertyIds with
  | none => .failure 400 "Property IDs are required"
  | some ids =>
      if ids.length = 0 then .failure 400 "Property IDs are required"
      else
        match updateMany with
        | .error _ => serverError
        | .ok _ => .success 200

/-- The handler `getPropertyMapData` (lines 280-305): `JSON.parse(bounds)` and the
query both run inside the `try`; throw → 500, otherwise 200. -/
def getPropertyMapData (query : Except Unit Unit) : HandlerResponse :=
  match query with
  | .error _ => serverError
  | .ok _ => .success 200

/-- The handler `exportProperties` (lines 308-339): query; throw → 500, otherwise a
200 (CSV attachment or JSON body depending on `format`). -/
def exportProperties (format : String) (query : Except Unit Unit) :
    HandlerResponse :=
  match query with
  | .error _ => serverError
  | .ok _ => .success 200

/-- C7: every error thrown inside a `PropertyController` handler's `try`
block produces a 500 response `'Server error'`; the only non-500 error
responses are the explicit branches — 404 `'Property not found'` exactly
when a lookup or update by the request's id yields no document, and 400
`'Property IDs are required'` from `bulkUpdateProperties` exactly when
`propertyIds` is missing, not an array, or empty; no handler can produce
any other error response. -/
theorem propertyController_error_taxonomy :
    (getProperties (.error ()) = serverError)
    ∧ (getProperty (.error ()) = serverError)
    ∧ (∀ g, createProperty (.error ()) g = serverError)
    ∧ (∀ p, createProperty (.ok p) (.error ()) = serverError)
    ∧ (updateProperty (.error ()) = serverError)
    ∧ (deleteProperty (.error ()) = serverError)
    ∧ (∀ e, enrichProperty (.error ()) e = serverError)
    ∧ (∀ p, enrichProperty (.ok (some p)) (.error ()) = serverError)
    ∧ (getPropertyAnalytics (.error ()) = serverError)
    ∧ (∀ i rest, bulkUpdateProperties (some (i :: rest)) (.error ()) = serverError)
    ∧ (getPropertyMapData (.error ()) = serverError)
    ∧ (∀ f, exportProperties f (.error ()) = serverError)
    ∧ (∀ f, getProperty f = propertyNotFound ↔ f = .ok none)
    ∧ (∀ f, updateProperty f = propertyNotFound ↔ f = .ok none)
    ∧ (∀ f, deleteProperty f = propertyNotFound ↔ f = .ok none)
    ∧ (∀ f e, enrichProperty f e = propertyNotFound ↔ f = .ok none)
    ∧ (∀ ids u, bulkUpdateProperties ids u = .failure 400 "Property IDs are required"
        ↔ (ids = none ∨ ids = some []))
    ∧ (∀ q, getProperties q = .success 200 ∨ getProperties q = serverError)
    ∧ (∀ f, getProperty f = .success 200 ∨ getProperty f = propertyNotFound
        ∨ getProperty f = serverError)
    ∧ (∀ cr g, createProperty cr g = .success 201
        ∨ createProperty cr g = serverError)
    ∧ (∀ f, updateProperty f = .success 200 ∨ updateProperty f = propertyNotFound
        ∨ updateProperty f = serverError)
    ∧ (∀ f, deleteProperty f = .success 200 ∨ deleteProperty f = propertyNotFound
        ∨ deleteProperty f = serverError)
    ∧ (∀ f e, enrichProperty f e = .success 200
        ∨ enrichProperty f e = propertyNotFound
        ∨ enrichProperty f e = serverError)
    ∧ (∀ a, getPropertyAnalytics a = .success 200
        ∨ getPropertyAnalytics a = serverError)
    ∧ (∀ ids u, bulkUpdateProperties ids u = .success 200
        ∨ bulkUpdateProperties ids u = .failure 400 "Property IDs are required"
        ∨ bulkUpdateProperties ids u = serverError)
    ∧ (∀ q, getPropertyMapData q = .success 200
        ∨ getPropertyMapData q = serverError)
    ∧ (∀ f q, exportProperties f q = .success 200
        ∨ exportProperties f q = serverError) := by
  refine ⟨rfl, rfl, ?_, ?_, rfl, rfl, ?_, ?_, rfl, ?_, rfl, ?_,
    ?_, ?_, ?_, ?_, ?_, ?_, ?_, ?_, ?_, ?_, ?_, ?_, ?_, ?_, ?_⟩
  · intro g; rfl
  · intro p; rfl
  · intro e; rfl
  · intro p; rfl
  · intro i rest; simp [bulkUpdateProperties]
  · intro f; rfl
  · intro f
    rcases f with e | o
    · simp [getProperty, serverError, propertyNotFound]
    · cases o <;> simp [getProperty, serverError, propertyNotFound]
  · intro f
    rcases f with e | o
    · simp [updateProperty, serverError, propertyNotFound]
    · cases o <;> simp [updateProperty, serverError, propertyNotFound]
  · intro f
    rcases f with e | o
    · simp [deleteProperty, serverError, propertyNotFound]
    · cases o <;> simp [deleteProperty, serverError, propertyNotFound]
  · intro f e
    rcases f with e' | o
    · simp [enrichProperty, serverError, propertyNotFound]
    · cases o
      · simp [enrichProperty, serverError, propertyNotFound]
      · cases e <;> simp [enrichProperty, serverError, propertyNotFound]
  · intro ids u
    rcases ids with _ | ids
    · simp [bulkUpdateProperties]
    · rcases ids with _ | ⟨i, rest⟩
      · simp [bulkUpdateProperties]
      · cases u <;> simp [bulkUpdateProperties, serverError]
  · intro q; cases q <;> simp [getProperties, serverError]
  · intro f
    rcases f with e | o
    · simp [getProperty, serverError]
    · cases o <;> simp [getProperty, serverError, propertyNotFound]
  · intro cr g
    rcases cr with e | p
    · simp [createProperty, serverError]
    · cases g <;> simp [createProperty, serverError]
  · intro f
    rcases f with e | o
    · simp [updateProperty, serverError]
    · cases o <;> simp [updateProperty, serverError, propertyNotFound]
  · intro f
    rcases f with e | o
    · simp [deleteProperty, serverError]
    · cases o <;> simp [deleteProperty, serverError, propertyNotFound]
  · intro f e
    rcases f with e' | o
    · simp [enrichProperty, serverError]
    · cases o
      · simp [enrichProperty, serverError, propertyNotFound]
      · cases e <;> simp [enrichProperty, serverError]
  · intro a; cases a <;> simp [getPropertyAnalytics, serverError]
  · intro ids u
    rcases ids with _ | ids
    · simp [bulkUpdateProperties]
    · rcases ids with _ | ⟨i, rest⟩
      · simp [bulkUpdateProperties]
      · cases u <;> simp [bulkUpdateProperties, serverError]
  · intro q; cases q <;> simp [getPropertyMapData, serverError]
  · intro f q; cases q <;> simp [exportProperties, serverError]

/-- Witness for C7 at a concrete input: a bulk update with `propertyIds`
missing is answered 400 `'Property IDs are required'`. -/
theorem propertyController_error_taxonomy_witness :
    bulkUpdateProperties none (.ok 0) = .failure 400 "Property IDs are required" := by
  obtain ⟨-, -, -, -, -, -, -, -, -, -, -, -, -, -, -, -, h400, -⟩ :=
    propertyController_error_taxonomy
  exact (h400 none (.ok 0)).mpr (Or.inl rfl)

end REAI
